import Mathlib

/-!
Shallow embedding of the Orvion x402 demo servers.

The embedding models the request handlers of `src/main.py` (the x402 demo
server) and `src/hosted-checkout/main.py`.  Each handler is a pure function
from the request data and the behaviour of the external payments backend to
the HTTP response it produces.  The backend (the Orvion SDK client and the
raw `httpx` calls) is modelled as explicit outcome values passed in, so that
theorems quantify over every backend behaviour.

Python JSON values are modelled by `JValue`; Python truthiness by
`JValue.truthy`; `dict.get` by `JValue.get` / `lookupField`.
-/

namespace Orvion

/-- a JSON value as produced by `request.json()` / `response.json()`. -/
inductive JValue where
  | null
  | bool (b : Bool)
  | num (n : Int)
  | str (s : String)
  | arr (items : List JValue)
  | obj (fields : List (String × JValue))

/-- Python truthiness of a JSON value (`if x:`): `None`, `False`, `0`,
the empty string, the empty list and the empty dict are falsy. -/
def JValue.truthy : JValue → Bool
  | .null => false
  | .bool b => b
  | .num n => n != 0
  | .str s => s != ""
  | .arr items => !items.isEmpty
  | .obj fields => !fields.isEmpty

/-- first value bound to key `k` in a JSON object's field list. -/
def lookupField (fields : List (String × JValue)) (k : String) : Option JValue :=
  match fields with
  | [] => none
  | (k2, v) :: rest => if k2 = k then some v else lookupField rest k

/-- `dict.get(k)`: `None` (here `Option.none`) when the key is absent,
and always `none` on a non-dict (where Python would raise). -/
def JValue.get : JValue → String → Option JValue
  | .obj fields, k => lookupField fields k
  | _, _ => none

/-- an HTTP response produced by a handler: status code and JSON body. -/
structure Resp where
  status : Nat
  body : JValue

/-- Python `str(...)` of a JSON value, used where the code stringifies a
field (`str(amount)`).  The list/dict renderings are placeholders; no
handler modelled here stringifies those shapes on a path a claim touches. -/
def pyStr : JValue → String
  | .str s => s
  | .num n => toString n
  | .bool true => "True"
  | .bool false => "False"
  | .null => "None"
  | .arr _ => "<list>"
  | .obj _ => "<dict>"

/-- Python `a or b` on two optional strings (`charge_id or x_transaction_id`):
`a` unless it is `None` or the empty string. -/
def pyOr (a b : Option String) : Option String :=
  match a with
  | some s => if s = "" then b else some s
  | none => b

/-- Python `a or d` on an optional string against a default string
(`result.reason or "Payment not completed"`). -/
def pyOrStr (a : Option String) (d : String) : String :=
  match a with
  | some s => if s = "" then d else s
  | none => d

/-! ## The SDK client, as seen by `src/main.py`

`orvion_client.verify_charge` and `orvion_client.create_charge` are calls
into the Orvion SDK (not under `src/`).  Their observable outcomes are an
input of the model. -/

/-- result object returned by a successful `verify_charge` call. -/
structure VerifyResult where
  verified : Bool
  transaction_id : String
  amount : String
  currency : String
  customer_ref : String
  reason : Option String

/-- Modelled from the spec: outcome of `OrvionClient.verify_charge` (SDK code
not under `src/`).  Per the spec's verify endpoint contract and its §4.1
error translation, a non-2xx backend response (404 transaction not found,
409 verification failed) surfaces as an `OrvionAPIError` carrying the
backend status; `src/main.py` itself documents this with
`except OrvionAPIError:  # Transaction not found or invalid`. -/
inductive VerifyOutcome where
  | ok (r : VerifyResult)
  | apiError (status : Nat) (msg : String)

/-- arguments `create_charge` is called with in `check_premium_access`. -/
structure ChargeRequest where
  amount : String
  currency : String
  customer_ref : String
  resource_ref : String
  description : String

/-- charge object returned by a successful `create_charge` call. -/
structure Charge where
  id : String
  amount : String
  currency : String
  x402_requirements : JValue

/-- Modelled from the spec: outcome of `OrvionClient.create_charge` (SDK code
not under `src/`): a charge record on success, `OrvionAPIError` otherwise. -/
inductive CreateOutcome where
  | ok (c : Charge)
  | apiError (msg : String)

/-- behaviour of the payments backend, as observed through the SDK client:
what `verify_charge` returns for each transaction id value, and what
`create_charge` returns for each charge request. -/
structure Backend where
  verify : JValue → VerifyOutcome
  create : ChargeRequest → CreateOutcome

/-! ## Module-level configuration constants of `src/main.py` -/

def PREMIUM_AMOUNT : String := "0.01"

def PREMIUM_CURRENCY : String := "USDC"

def PREMIUM_RESOURCE_REF : String := "demo:premium-article"

def DEMO_CUSTOMER_EMAIL : String := "ekinburakozturk+demo@gmail.com"

/-- the exact `create_charge` call made by `check_premium_access`
(`src/main.py` lines 404-410): the route's configured price, never
anything caller-supplied. -/
def premiumChargeRequest : ChargeRequest :=
  { amount := PREMIUM_AMOUNT
    currency := PREMIUM_CURRENCY
    customer_ref := DEMO_CUSTOMER_EMAIL
    resource_ref := PREMIUM_RESOURCE_REF
    description := "Premium Article Access" }

/-! ## `GET /api/premium/check` — `check_premium_access` (src/main.py 349-427) -/

/-- 200 body returned on a verified transaction (src/main.py 384-394). -/
def grantedBody (r : VerifyResult) : JValue :=
  .obj [("access", .str "granted"),
        ("transaction_id", .str r.transaction_id),
        ("amount", .str r.amount),
        ("currency", .str r.currency),
        ("customer_ref", .str r.customer_ref),
        ("verified", .bool true)]

/-- 402 body returned with a freshly created charge (src/main.py 412-421). -/
def challengeBody (c : Charge) : JValue :=
  .obj [("error", .str "Payment Required"),
        ("charge_id", .str c.id),
        ("amount", .str c.amount),
        ("currency", .str c.currency),
        ("x402_requirements", c.x402_requirements),
        ("description", .str "Premium Article Access")]

/-- result of one `check_premium_access` call: the response, plus the
transaction-id values submitted to `verify_charge` and the requests
submitted to `create_charge` during the call. -/
structure GateResult where
  resp : Resp
  verifyCalls : List JValue
  createCalls : List ChargeRequest

/-- tail of `check_premium_access` (src/main.py 402-427): no valid
transaction, so create a charge for the route's configured price and
answer 402, or 500 if charge creation fails. -/
def noProofResult (B : Backend) (vcalls : List JValue) : GateResult :=
  match B.create premiumChargeRequest with
  | .ok c =>
      { resp := { status := 402, body := challengeBody c }
        verifyCalls := vcalls
        createCalls := [premiumChargeRequest] }
  | .apiError e =>
      { resp := { status := 500
                  body := .obj [("error", .str "Failed to create charge"),
                                ("detail", .str e)] }
        verifyCalls := vcalls
        createCalls := [premiumChargeRequest] }

/-- `check_premium_access` (src/main.py 349-427).  `clientOk` is whether the
module-level `orvion_client` was initialized.  The proof selection is
`transaction_id = charge_id or x_transaction_id` (line 373): the query
parameter, when non-empty, is used; the header only as fallback. -/
def check_premium_access (clientOk : Bool) (B : Backend)
    (x_transaction_id charge_id : Option String) : GateResult :=
  if clientOk = false then
    { resp := { status := 500
                body := .obj [("error", .str "Server misconfigured"),
                              ("detail", .str "Meshpay client not initialized")] }
      verifyCalls := []
      createCalls := [] }
  else
    match pyOr charge_id x_transaction_id with
    | none => noProofResult B []
    | some t =>
      if t = "" then noProofResult B []
      else
        match B.verify (.str t) with
        | .ok res =>
            if res.verified then
              { resp := { status := 200, body := grantedBody res }
                verifyCalls := [.str t]
                createCalls := [] }
            else noProofResult B [.str t]
        | .apiError _ _ => noProofResult B [.str t]

/-! ## `POST /api/premium/verify` — `verify_premium_payment` (src/main.py 430-485) -/

/-- `verify_premium_payment` (src/main.py 430-485).  `reqBody` is the parse
of the request body: `none` when `request.json()` raises (caught by the
final `except Exception` → 400), a non-object value also lands in that
handler because `body.get` raises `AttributeError`. -/
def verify_premium_payment (clientOk : Bool) (B : Backend)
    (reqBody : Option JValue) : Resp :=
  if clientOk = false then
    { status := 500, body := .obj [("error", .str "Server misconfigured")] }
  else
    match reqBody with
    | none =>
        { status := 400
          body := .obj [("error", .str "Invalid request"),
                        ("detail", .str "request body is not valid JSON")] }
    | some (.obj fields) =>
        let tid := (lookupField fields "transaction_id").getD .null
        if tid.truthy = false then
          { status := 400, body := .obj [("error", .str "Missing transaction_id")] }
        else
          match B.verify tid with
          | .ok r =>
              if r.verified then
                { status := 200
                  body := .obj [("verified", .bool true),
                                ("transaction_id", .str r.transaction_id),
                                ("amount", .str r.amount),
                                ("currency", .str r.currency),
                                ("customer_ref", .str r.customer_ref)] }
              else
                { status := 402
                  body := .obj [("verified", .bool false),
                                ("reason", .str (pyOrStr r.reason "Payment not completed"))] }
          | .apiError _ msg =>
              { status := 500
                body := .obj [("error", .str "Verification failed"),
                              ("detail", .str msg)] }
    | some _ =>
        { status := 400
          body := .obj [("error", .str "Invalid request"),
                        ("detail", .str "body has no attribute get")] }

/-! ## Raw httpx proxy handlers (src/main.py 492-618) and
`test_connection` (src/main.py 137-198)

Each raw backend call is modelled by an `HttpOutcome`: a response carrying
the status code and the parse of `response.json()` (`none` when the body is
unparseable), a connection error (`httpx.ConnectError`), a timeout
(`httpx.TimeoutException`, which is not a `ConnectError` and so falls into
the generic `except Exception` handler of the proxies), or any other
exception.  The proxy handlers receive the backend as a call sequence
`Nat → HttpOutcome` and report how many calls they made, so that the
absence of retries is a statement about the model rather than an artifact
of it. -/

inductive HttpOutcome where
  | response (status : Nat) (body : Option JValue)
  | connectError
  | timeout (msg : String)
  | otherError (msg : String)

/-- body substituted when the backend response is unparseable JSON
(src/main.py 535-538, 568-571, 602-605). -/
def invalidBackendJson : JValue :=
  .obj [("error", .str "Invalid JSON response from backend")]

/-- 502 body for `httpx.ConnectError` (src/main.py 542-546, 575-579). -/
def backendUnreachableBody : JValue :=
  .obj [("error", .str "backend_unreachable"),
        ("detail", .str "Connection to backend failed")]

/-- response assembled from the outcome of one proxied backend call: the
shared tail of `proxy_facilitator_confirm`, `proxy_demo_ui_state` and
`proxy_cancel_billing_transaction` (their try/except blocks are
textually identical).  A timeout is an `Exception` but not a
`ConnectError`, so it lands in the generic handler with status 502. -/
def forwardOutcome : HttpOutcome → Resp
  | .response st body? => { status := st, body := body?.getD invalidBackendJson }
  | .connectError => { status := 502, body := backendUnreachableBody }
  | .timeout msg =>
      { status := 502
        body := .obj [("error", .str "proxy_error"), ("detail", .str msg)] }
  | .otherError msg =>
      { status := 502
        body := .obj [("error", .str "proxy_error"), ("detail", .str msg)] }

/-- result of one proxy handler call: response plus the number of backend
requests issued during the call. -/
structure ProxyResult where
  resp : Resp
  backendCalls : Nat

/-- `proxy_facilitator_confirm` (src/main.py 492-551).  `reqBody` is the
parse of the request body (`none` when `request.json()` raises).  The
validation `"transaction_id" not in body or not body.get("transaction_id")`
is equivalent to the lookup being absent or falsy. -/
def proxy_facilitator_confirm (reqBody : Option JValue)
    (backend : Nat → HttpOutcome) : ProxyResult :=
  match reqBody with
  | none =>
      { resp := { status := 400
                  body := .obj [("error", .str "invalid_json"),
                                ("detail", .str "Request body must be valid JSON")] }
        backendCalls := 0 }
  | some (.obj fields) =>
      if (((lookupField fields "transaction_id").getD .null).truthy) = false then
        { resp := { status := 400
                    body := .obj [("error", .str "missing_transaction_id"),
                                  ("detail", .str "transaction_id is required")] }
          backendCalls := 0 }
      else if (((lookupField fields "tx_hash").getD .null).truthy) = false then
        { resp := { status := 400
                    body := .obj [("error", .str "missing_tx_hash"),
                                  ("detail", .str "tx_hash is required")] }
          backendCalls := 0 }
      else
        { resp := forwardOutcome (backend 0), backendCalls := 1 }
  | some _ =>
      { resp := { status := 400
                  body := .obj [("error", .str "invalid_body"),
                                ("detail", .str "Request body must be a JSON object")] }
        backendCalls := 0 }

/-- `proxy_demo_ui_state` (src/main.py 554-584): one GET to the backend,
then the shared forwarding tail.  The path parameter only feeds the URL. -/
def proxy_demo_ui_state (_transaction_id : String)
    (backend : Nat → HttpOutcome) : ProxyResult :=
  { resp := forwardOutcome (backend 0), backendCalls := 1 }

/-- replace or append a key in a JSON object's field list, modelling a
Python dict item assignment. -/
def setField (fields : List (String × JValue)) (k : String) (v : JValue) :
    List (String × JValue) :=
  match fields with
  | [] => [(k, v)]
  | (k2, v2) :: rest =>
      if k2 = k then (k, v) :: rest else (k2, v2) :: setField rest k v

/-- `test_connection` (src/main.py 137-198).  `healthCall` is the outcome of
the unauthenticated `GET /health`; `keyCall` that of the authenticated
`GET /v1/health` (reached only when the first returned status 200).  Every
branch of the handler wraps the result dict in a
`JSONResponse(..., status_code=200)`. -/
def test_connection (healthCall keyCall : HttpOutcome) : Resp :=
  let backend0 : List (String × JValue) :=
    [("reachable", .bool false), ("health_status", .null), ("api_key_valid", .null)]
  let mkResp : List (String × JValue) → Resp := fun backend =>
    { status := 200
      body := .obj [("demo_server", .str "ok"), ("backend", .obj backend)] }
  match healthCall with
  | .connectError =>
      mkResp (setField backend0 "error"
        (.str "Connection refused - Is backend running on port 8000?"))
  | .timeout _ =>
      mkResp (setField backend0 "error"
        (.str "Connection timeout - Backend not responding"))
  | .otherError msg =>
      mkResp (setField backend0 "error" (.str ("Connection error: " ++ msg)))
  | .response st _ =>
    let b1 := setField (setField backend0 "reachable" (.bool true))
                "health_status" (.num st)
    if st ≠ 200 then
      mkResp (setField b1 "error" (.str ("Health check returned " ++ toString st)))
    else
      match keyCall with
      | .response 200 (some (.obj data)) =>
          mkResp (setField (setField (setField b1 "api_key_valid" (.bool true))
            "organization_id" ((lookupField data "organization_id").getD .null))
            "environment" ((lookupField data "environment").getD .null))
      | .response 200 (some _) =>
          mkResp (setField (setField b1 "api_key_valid" .null) "api_key_error"
            (.str "Could not verify API key: response is not a JSON object"))
      | .response 200 none =>
          mkResp (setField (setField b1 "api_key_valid" .null) "api_key_error"
            (.str "Could not verify API key: invalid JSON body"))
      | .response 401 _ =>
          mkResp (setField (setField b1 "api_key_valid" (.bool false)) "error"
            (.str "401 Unauthorized - Check ORVION_API_KEY in .env"))
      | .response st2 _ =>
          mkResp (setField (setField b1 "api_key_valid" .null) "error"
            (.str ("Unexpected status " ++ toString st2)))
      | .connectError =>
          mkResp (setField (setField b1 "api_key_valid" .null) "api_key_error"
            (.str "Could not verify API key: connection failed"))
      | .timeout msg =>
          mkResp (setField (setField b1 "api_key_valid" .null) "api_key_error"
            (.str ("Could not verify API key: " ++ msg)))
      | .otherError msg =>
          mkResp (setField (setField b1 "api_key_valid" .null) "api_key_error"
            (.str ("Could not verify API key: " ++ msg)))

/-! ## `GET /api/checkout` — `checkout_with_route`
(src/hosted-checkout/main.py 226-311) -/

/-- outcome of an SDK `_request` call in the hosted-checkout demo: the
parsed JSON on success, or a raised exception message. -/
inductive SdkOutcome (α : Type) where
  | ok (v : α)
  | exn (msg : String)

/-- response of `checkout_with_route`: an `HTTPException` with a status and
detail, or a 302 redirect to the checkout URL. -/
inductive CheckoutResp where
  | httpError (status : Nat) (detail : String)
  | redirect (status : Nat) (url : String)

/-- result of one `checkout_with_route` call: the response plus every
charge-creation payload submitted to `POST /v1/charges` during the call. -/
structure CheckoutResult where
  resp : CheckoutResp
  chargePayloads : List (List (String × JValue))

/-- Python `str.rstrip("/")`. -/
def rstripSlashes (s : String) : String :=
  String.mk ((s.toList.reverse.dropWhile (fun c => c = '/')).reverse)

/-- scan of `next((r for r in routes if r.get("id") == route_id), None)`
(src/hosted-checkout/main.py 249): first object whose `id` field is the
string `route_id`; a non-dict element raises (`.get` on a non-dict),
which the handler's generic except turns into a 500. -/
def find_route : List JValue → String → SdkOutcome (Option (List (String × JValue)))
  | [], _ => .ok none
  | JValue.obj fields :: rest, rid =>
      (match lookupField fields "id" with
       | some (.str s) => if s = rid then .ok (some fields) else find_route rest rid
       | _ => find_route rest rid)
  | _ :: _, _ => .exn "AttributeError: get"

/-- charge payload built by `checkout_with_route`
(src/hosted-checkout/main.py 265-290): amount, currency and receiver
configuration read from the backend route record; `customer_ref` and the
return URL fixed by the handler. -/
def charge_payload (route : List (String × JValue)) (base_url : String) :
    List (String × JValue) :=
  let amount := (lookupField route "amount").getD .null
  let currency := (lookupField route "currency").getD (.str "USDC")
  let receiver := (lookupField route "receiver_config_id").getD .null
  let return_url := rstripSlashes base_url ++ "/premium"
  let base := [("amount", JValue.str (pyStr amount)), ("currency", currency),
               ("customer_ref", JValue.str "demo-user"),
               ("return_url", JValue.str return_url)]
  if receiver.truthy then base ++ [("receiver_config_id", receiver)] else base

/-- route selection step of `checkout_with_route`
(src/hosted-checkout/main.py 246-249): scan only when
`isinstance(routes, list)`, else `route` stays `None`. -/
def scan_routes (routes : JValue) (route_id : String) :
    SdkOutcome (Option (List (String × JValue))) :=
  match routes with
  | .arr items => find_route items route_id
  | _ => .ok none

/-- charge creation and redirect step of `checkout_with_route`
(src/hosted-checkout/main.py 292-307): on success, redirect 302 to the
returned `checkout_url` (500 when it is missing or falsy, or when the
charge response is not a JSON object so that `.get` raises); on an SDK
exception, 500. -/
def create_and_redirect (create : SdkOutcome JValue)
    (payload : List (String × JValue)) : CheckoutResult :=
  match create with
  | .exn msg =>
      { resp := .httpError 500 ("Failed to create charge: " ++ msg)
        chargePayloads := [payload] }
  | .ok (.obj chargeFields) =>
      if ((lookupField chargeFields "checkout_url").getD .null).truthy then
        { resp := .redirect 302
            (pyStr ((lookupField chargeFields "checkout_url").getD .null))
          chargePayloads := [payload] }
      else
        { resp := .httpError 500
            "No checkout URL returned. Check route configuration."
          chargePayloads := [payload] }
  | .ok _ =>
      { resp := .httpError 500 "Failed to create charge: AttributeError: get"
        chargePayloads := [payload] }

/-- `checkout_with_route` (src/hosted-checkout/main.py 226-311).  `fetch` is
the outcome of `GET /v1/protected-routes/routes`; `create` that of
`POST /v1/charges` (consulted only if a charge is actually created).
`HTTPException`s raised in the try block are re-raised unchanged; any
other exception becomes a 500. -/
def checkout_with_route (fetch : SdkOutcome JValue) (route_id base_url : String)
    (create : SdkOutcome JValue) : CheckoutResult :=
  match fetch with
  | .exn msg =>
      { resp := .httpError 500 ("Failed to create charge: " ++ msg)
        chargePayloads := [] }
  | .ok routes =>
    match scan_routes routes route_id with
    | .exn msg =>
        { resp := .httpError 500 ("Failed to create charge: " ++ msg)
          chargePayloads := [] }
    | .ok none =>
        { resp := .httpError 404 ("Protected route " ++ route_id ++ " not found")
          chargePayloads := [] }
    | .ok (some route) =>
      match (lookupField route "status").getD (.str "active") with
      | .str s =>
        if s = "active" then
          if ((lookupField route "amount").getD .null).truthy then
            create_and_redirect create (charge_payload route base_url)
          else
            { resp := .httpError 400
                ("Protected route " ++ route_id ++ " has no amount configured")
              chargePayloads := [] }
        else
          { resp := .httpError 400
              ("Protected route " ++ route_id ++ " is not active")
            chargePayloads := [] }
      | _ =>
          { resp := .httpError 400
              ("Protected route " ++ route_id ++ " is not active")
            chargePayloads := [] }

/-! ## Helper lemmas -/

/-- the validation applied by `proxy_facilitator_confirm` to a parsed body:
it must be a JSON object with truthy `transaction_id` and `tx_hash`. -/
def confirmBodyValid (b : JValue) : Bool :=
  match b with
  | .obj fields =>
      ((lookupField fields "transaction_id").getD .null).truthy &&
      ((lookupField fields "tx_hash").getD .null).truthy
  | _ => false

theorem noProofResult_verifyCalls (B : Backend) (v : List JValue) :
    (noProofResult B v).verifyCalls = v := by
  unfold noProofResult
  cases B.create premiumChargeRequest <;> rfl

theorem noProofResult_createCalls (B : Backend) (v : List JValue) :
    (noProofResult B v).createCalls = [premiumChargeRequest] := by
  unfold noProofResult
  cases B.create premiumChargeRequest <;> rfl

theorem noProofResult_status_ne_200 (B : Backend) (v : List JValue) :
    (noProofResult B v).resp.status ≠ 200 := by
  unfold noProofResult
  cases B.create premiumChargeRequest <;> simp

theorem noProofResult_402 (B : Backend) (v : List JValue)
    (h : (noProofResult B v).resp.status = 402) :
    ∃ c, B.create premiumChargeRequest = .ok c ∧
      (noProofResult B v).resp = { status := 402, body := challengeBody c } := by
  revert h
  unfold noProofResult
  cases hc : B.create premiumChargeRequest with
  | ok c => exact fun _ => ⟨c, rfl, rfl⟩
  | apiError e => intro h; simp at h

theorem create_and_redirect_payloads (create : SdkOutcome JValue)
    (payload : List (String × JValue)) :
    (create_and_redirect create payload).chargePayloads = [payload] := by
  cases create with
  | exn m => rfl
  | ok v =>
    cases v with
    | obj f =>
        by_cases hcu : ((lookupField f "checkout_url").getD .null).truthy
        · simp [create_and_redirect, hcu]
        · simp [create_and_redirect, hcu]
    | null => rfl
    | bool b => rfl
    | num n => rfl
    | str s => rfl
    | arr i => rfl

/-- control-flow case split for `check_premium_access` with an initialized
client: either the call ended in the create-a-charge tail, or it admitted a
verified transaction. -/
theorem gate_cases (B : Backend) (hdr q : Option String) :
    (∃ v, check_premium_access true B hdr q = noProofResult B v) ∨
    (∃ t r, pyOr q hdr = some t ∧ t ≠ "" ∧
      B.verify (.str t) = .ok r ∧ r.verified = true ∧
      check_premium_access true B hdr q =
        { resp := { status := 200, body := grantedBody r },
          verifyCalls := [JValue.str t], createCalls := [] }) := by
  cases hpy : pyOr q hdr with
  | none =>
      left
      exact ⟨[], by unfold check_premium_access; rw [hpy]; rfl⟩
  | some t =>
      by_cases ht : t = ""
      · left
        refine ⟨[], ?_⟩
        unfold check_premium_access
        rw [hpy]
        simp [ht]
      · cases hv : B.verify (.str t) with
        | ok r =>
          cases hr : r.verified with
          | false =>
              left
              refine ⟨[JValue.str t], ?_⟩
              unfold check_premium_access
              rw [hpy]
              simp [ht, hv, hr]
          | true =>
              right
              refine ⟨t, r, rfl, ht, hv, hr, ?_⟩
              unfold check_premium_access
              rw [hpy]
              simp [ht, hv, hr]
        | apiError st msg =>
          left
          refine ⟨[JValue.str t], ?_⟩
          unfold check_premium_access
          rw [hpy]
          simp [ht, hv]

/-! ## Claims -/

/-- C9: `GET /api/test-connection` answers HTTP 200 for every backend
condition — unreachable, timed out, non-200 health, invalid API key, or any
other error; failures are reported only inside the JSON body. -/
theorem C9_test_connection_always_200 (h k : HttpOutcome) :
    (test_connection h k).status = 200 := by
  cases h with
  | connectError => rfl
  | timeout m => rfl
  | otherError m => rfl
  | response st b =>
      unfold test_connection
      dsimp only
      split
      · rfl
      · split <;> rfl

/-- C10: `POST /api/facilitator/confirm` rejects with HTTP 400, before any
backend call, every request whose body is not valid JSON, is not a JSON
object, or lacks a truthy `transaction_id` or `tx_hash`; the backend is
contacted (exactly once) only when all checks pass. -/
theorem C10_confirm_validation (backend : Nat → HttpOutcome) :
    ((proxy_facilitator_confirm none backend).resp.status = 400 ∧
     (proxy_facilitator_confirm none backend).backendCalls = 0) ∧
    (∀ v : JValue, confirmBodyValid v = false →
      (proxy_facilitator_confirm (some v) backend).resp.status = 400 ∧
      (proxy_facilitator_confirm (some v) backend).backendCalls = 0) ∧
    (∀ v : JValue, confirmBodyValid v = true →
      (proxy_facilitator_confirm (some v) backend).backendCalls = 1) := by
  refine ⟨⟨rfl, rfl⟩, ?_, ?_⟩
  · intro v hval
    cases v with
    | obj fields =>
        unfold confirmBodyValid at hval
        unfold proxy_facilitator_confirm
        rcases Bool.and_eq_false_iff.mp hval with h1 | h2
        · simp [h1]
        · by_cases h1 : ((lookupField fields "transaction_id").getD .null).truthy
          · simp [h1, h2]
          · simp [Bool.eq_false_iff.mpr h1]
    | null => exact ⟨rfl, rfl⟩
    | bool b => exact ⟨rfl, rfl⟩
    | num n => exact ⟨rfl, rfl⟩
    | str s => exact ⟨rfl, rfl⟩
    | arr items => exact ⟨rfl, rfl⟩
  · intro v hval
    cases v with
    | obj fields =>
        unfold confirmBodyValid at hval
        unfold proxy_facilitator_confirm
        rcases Bool.and_eq_true_iff.mp hval with ⟨h1, h2⟩
        simp [h1, h2]
    | null => simp [confirmBodyValid] at hval
    | bool b => simp [confirmBodyValid] at hval
    | num n => simp [confirmBodyValid] at hval
    | str s => simp [confirmBodyValid] at hval
    | arr items => simp [confirmBodyValid] at hval

/-- C10 witness: concrete instances of every branch of the validation
theorem. -/
theorem C10_confirm_validation_witness :
    ((proxy_facilitator_confirm (some (.obj [("transaction_id", .str "t1")]))
        (fun _ => .connectError)).resp.status = 400 ∧
     (proxy_facilitator_confirm (some (.obj [("transaction_id", .str "t1")]))
        (fun _ => .connectError)).backendCalls = 0) ∧
    (proxy_facilitator_confirm
        (some (.obj [("transaction_id", .str "t1"), ("tx_hash", .str "0xabc")]))
        (fun _ => .connectError)).backendCalls = 1 :=
  ⟨(C10_confirm_validation (fun _ => .connectError)).2.1
      (.obj [("transaction_id", .str "t1")]) rfl,
   (C10_confirm_validation (fun _ => .connectError)).2.2
      (.obj [("transaction_id", .str "t1"), ("tx_hash", .str "0xabc")]) rfl⟩

/-- C7: for every proxied backend call that produces a response, a body that
parses as JSON is returned unchanged together with the backend status code,
and an unparseable body is replaced by the generic error envelope (shown for
both `proxy_facilitator_confirm` and `proxy_demo_ui_state`). -/
theorem C7_passthrough (b : Option JValue) (tid : String)
    (backend : Nat → HttpOutcome) (st : Nat) (j : JValue) :
    (backend 0 = .response st (some j) →
      (proxy_facilitator_confirm b backend).backendCalls = 1 →
      (proxy_facilitator_confirm b backend).resp = { status := st, body := j }) ∧
    (backend 0 = .response st none →
      (proxy_facilitator_confirm b backend).backendCalls = 1 →
      (proxy_facilitator_confirm b backend).resp =
        { status := st, body := invalidBackendJson }) ∧
    (backend 0 = .response st (some j) →
      (proxy_demo_ui_state tid backend).resp = { status := st, body := j }) ∧
    (backend 0 = .response st none →
      (proxy_demo_ui_state tid backend).resp =
        { status := st, body := invalidBackendJson }) := by
  have hmain : ∀ o : Option JValue, backend 0 = .response st o →
      forwardOutcome (backend 0) = { status := st, body := o.getD invalidBackendJson } := by
    intro o ho
    rw [ho]
    rfl
  refine ⟨?_, ?_, ?_, ?_⟩
  · intro hb hcalls
    cases b with
    | none => simp [proxy_facilitator_confirm] at hcalls
    | some v =>
      cases v with
      | obj fields =>
          unfold proxy_facilitator_confirm at hcalls ⊢
          by_cases h1 : ((lookupField fields "transaction_id").getD .null).truthy
          · by_cases h2 : ((lookupField fields "tx_hash").getD .null).truthy
            · simp only [h1, h2]
              simpa using hmain (some j) hb
            · simp [h1, Bool.eq_false_iff.mpr h2] at hcalls
          · simp [Bool.eq_false_iff.mpr h1] at hcalls
      | null => simp [proxy_facilitator_confirm] at hcalls
      | bool x => simp [proxy_facilitator_confirm] at hcalls
      | num n => simp [proxy_facilitator_confirm] at hcalls
      | str s => simp [proxy_facilitator_confirm] at hcalls
      | arr items => simp [proxy_facilitator_confirm] at hcalls
  · intro hb hcalls
    cases b with
    | none => simp [proxy_facilitator_confirm] at hcalls
    | some v =>
      cases v with
      | obj fields =>
          unfold proxy_facilitator_confirm at hcalls ⊢
          by_cases h1 : ((lookupField fields "transaction_id").getD .null).truthy
          · by_cases h2 : ((lookupField fields "tx_hash").getD .null).truthy
            · simp only [h1, h2]
              simpa using hmain none hb
            · simp [h1, Bool.eq_false_iff.mpr h2] at hcalls
          · simp [Bool.eq_false_iff.mpr h1] at hcalls
      | null => simp [proxy_facilitator_confirm] at hcalls
      | bool x => simp [proxy_facilitator_confirm] at hcalls
      | num n => simp [proxy_facilitator_confirm] at hcalls
      | str s => simp [proxy_facilitator_confirm] at hcalls
      | arr items => simp [proxy_facilitator_confirm] at hcalls
  · intro hb
    unfold proxy_demo_ui_state
    simpa using hmain (some j) hb
  · intro hb
    unfold proxy_demo_ui_state
    simpa using hmain none hb

/-- C7 witness: a parsed body is forwarded verbatim with the backend status,
and an unparseable one is replaced by the envelope, at concrete inputs. -/
theorem C7_passthrough_witness :
    (proxy_facilitator_confirm
        (some (.obj [("transaction_id", .str "t1"), ("tx_hash", .str "0xabc")]))
        (fun _ => .response 422 (some (.obj [("detail", .str "bad tx")])))).resp =
      { status := 422, body := .obj [("detail", .str "bad tx")] } ∧
    (proxy_demo_ui_state "t1" (fun _ => .response 200 none)).resp =
      { status := 200, body := invalidBackendJson } :=
  ⟨(C7_passthrough
      (some (.obj [("transaction_id", .str "t1"), ("tx_hash", .str "0xabc")])) "t1"
      (fun _ => .response 422 (some (.obj [("detail", .str "bad tx")]))) 422
      (.obj [("detail", .str "bad tx")])).1 rfl rfl,
   (C7_passthrough
      (some (.obj [("transaction_id", .str "t1"), ("tx_hash", .str "0xabc")])) "t1"
      (fun _ => .response 200 none) 200
      (.obj [("detail", .str "bad tx")])).2.2.2 rfl⟩

/-- C8: when the backend call fails with connection refused
(`httpx.ConnectError`), the caller receives 502 with the structured
`backend_unreachable` body — never a success response (status 200). -/
theorem C8_connect_error_502 (b : Option JValue) (tid : String)
    (backend : Nat → HttpOutcome) (hb : backend 0 = .connectError) :
    ((proxy_facilitator_confirm b backend).backendCalls = 1 →
      (proxy_facilitator_confirm b backend).resp =
        { status := 502, body := backendUnreachableBody } ∧
      (proxy_facilitator_confirm b backend).resp.status ≠ 200) ∧
    ((proxy_demo_ui_state tid backend).resp =
        { status := 502, body := backendUnreachableBody } ∧
     (proxy_demo_ui_state tid backend).resp.status ≠ 200) := by
  have hfwd : forwardOutcome (backend 0) = { status := 502, body := backendUnreachableBody } := by
    rw [hb]
    rfl
  constructor
  · intro hcalls
    cases b with
    | none => simp [proxy_facilitator_confirm] at hcalls
    | some v =>
      cases v with
      | obj fields =>
          unfold proxy_facilitator_confirm at hcalls ⊢
          by_cases h1 : ((lookupField fields "transaction_id").getD .null).truthy
          · by_cases h2 : ((lookupField fields "tx_hash").getD .null).truthy
            · simp only [h1, h2]
              rw [hfwd]
              exact ⟨rfl, by decide⟩
            · simp [h1, Bool.eq_false_iff.mpr h2] at hcalls
          · simp [Bool.eq_false_iff.mpr h1] at hcalls
      | null => simp [proxy_facilitator_confirm] at hcalls
      | bool x => simp [proxy_facilitator_confirm] at hcalls
      | num n => simp [proxy_facilitator_confirm] at hcalls
      | str s => simp [proxy_facilitator_confirm] at hcalls
      | arr items => simp [proxy_facilitator_confirm] at hcalls
  · unfold proxy_demo_ui_state
    rw [hfwd]
    exact ⟨rfl, by decide⟩

/-- C8 witness: both proxies at concrete inputs with a refused connection. -/
theorem C8_connect_error_502_witness :
    (proxy_facilitator_confirm
        (some (.obj [("transaction_id", .str "t1"), ("tx_hash", .str "0xabc")]))
        (fun _ => .connectError)).resp =
      { status := 502, body := backendUnreachableBody } ∧
    (proxy_demo_ui_state "t1" (fun _ => .connectError)).resp =
      { status := 502, body := backendUnreachableBody } :=
  ⟨((C8_connect_error_502
      (some (.obj [("transaction_id", .str "t1"), ("tx_hash", .str "0xabc")])) "t1"
      (fun _ => .connectError) rfl).1 rfl).1,
   (C8_connect_error_502
      (some (.obj [("transaction_id", .str "t1"), ("tx_hash", .str "0xabc")])) "t1"
      (fun _ => .connectError) rfl).2.1⟩

/-- C4 counterexample: a backend timeout during the facilitator confirm
proxy surfaces as HTTP 502 (the generic except handler), not 504 as the
claim states. -/
theorem C4_counterexample :
    (proxy_facilitator_confirm
        (some (.obj [("transaction_id", .str "txn_1"), ("tx_hash", .str "0xabc")]))
        (fun _ => .timeout "Request timed out")).resp.status = 502 ∧
    (502 : Nat) ≠ 504 := by
  exact ⟨rfl, by decide⟩

/-- C4 (amended): a backend timeout during the facilitator confirm proxy
surfaces as HTTP 502 with the `proxy_error` body, and exactly one backend
request is made — no automatic retry within the call. -/
theorem C4_timeout_502_no_retry (fields : List (String × JValue))
    (backend : Nat → HttpOutcome) (msg : String)
    (h1 : ((lookupField fields "transaction_id").getD .null).truthy = true)
    (h2 : ((lookupField fields "tx_hash").getD .null).truthy = true)
    (hb : backend 0 = .timeout msg) :
    (proxy_facilitator_confirm (some (.obj fields)) backend).resp =
      { status := 502
        body := .obj [("error", .str "proxy_error"), ("detail", .str msg)] } ∧
    (proxy_facilitator_confirm (some (.obj fields)) backend).backendCalls = 1 := by
  unfold proxy_facilitator_confirm
  simp only [h1, h2]
  rw [show forwardOutcome (backend 0) =
      { status := 502
        body := JValue.obj [("error", .str "proxy_error"), ("detail", .str msg)] } by
    rw [hb]; rfl]
  exact ⟨rfl, rfl⟩

/-- C4 witness: the amended timeout behaviour at a concrete input. -/
theorem C4_timeout_502_no_retry_witness :
    (proxy_facilitator_confirm
        (some (.obj [("transaction_id", .str "txn_1"), ("tx_hash", .str "0xabc")]))
        (fun _ => .timeout "Request timed out")).resp =
      { status := 502
        body := .obj [("error", .str "proxy_error"),
                      ("detail", .str "Request timed out")] } ∧
    (proxy_facilitator_confirm
        (some (.obj [("transaction_id", .str "txn_1"), ("tx_hash", .str "0xabc")]))
        (fun _ => .timeout "Request timed out")).backendCalls = 1 :=
  C4_timeout_502_no_retry
    [("transaction_id", .str "txn_1"), ("tx_hash", .str "0xabc")]
    (fun _ => .timeout "Request timed out") "Request timed out" rfl rfl rfl

/-- backend used for the C1 theorems: only the query parameter's charge id
verifies; the header's transaction id is unknown to the backend. -/
def c1Backend : Backend :=
  { verify := fun t =>
      match t with
      | .str s =>
          if s = "chg_q" then
            .ok { verified := true, transaction_id := "chg_q", amount := "0.01",
                  currency := "USDC", customer_ref := "demo", reason := none }
          else .apiError 404 "Transaction not found"
      | _ => .apiError 404 "Transaction not found"
    create := fun _ =>
      .ok { id := "ch_1", amount := "0.01", currency := "USDC",
            x402_requirements := .null } }

/-- C1 counterexample: with header `X-Transaction-Id: txn_h` and query
parameter `charge_id=chg_q` both present, the value submitted to
verification is the query parameter `chg_q`, not the header `txn_h`
(`transaction_id = charge_id or x_transaction_id`, src/main.py 373), and
the admitted response carries `chg_q`. -/
theorem C1_counterexample :
    (check_premium_access true c1Backend (some "txn_h") (some "chg_q")).verifyCalls =
      [JValue.str "chg_q"] ∧
    [JValue.str "chg_q"] ≠ [JValue.str "txn_h"] ∧
    (check_premium_access true c1Backend (some "txn_h") (some "chg_q")).resp.body.get
      "transaction_id" = some (.str "chg_q") := by
  refine ⟨rfl, ?_, rfl⟩
  intro h
  injection h with h1 h2
  injection h1 with h3
  exact absurd h3 (by decide)

/-- C1 (amended): when both a header proof and a query-parameter proof are
present, the query-parameter proof takes precedence — the value submitted to
verification is the non-empty `charge_id`; the header is used only when
`charge_id` is absent or empty. -/
theorem C1_query_precedence (B : Backend) (hdr : Option String) (q : String)
    (hq : q ≠ "") :
    (check_premium_access true B hdr (some q)).verifyCalls = [JValue.str q] := by
  have hpy : pyOr (some q) hdr = some q := by simp [pyOr, hq]
  unfold check_premium_access
  rw [hpy]
  cases hv : B.verify (.str q) with
  | ok r =>
      cases hr : r.verified with
      | true => simp [hq, hv, hr]
      | false => simp [hq, hv, hr, noProofResult_verifyCalls]
  | apiError st msg => simp [hq, hv, noProofResult_verifyCalls]

/-- C1 witness: the amended precedence rule at the counterexample input. -/
theorem C1_query_precedence_witness :
    ("chg_q" : String) ≠ "" ∧
    (check_premium_access true c1Backend (some "txn_h") (some "chg_q")).verifyCalls =
      [JValue.str "chg_q"] :=
  ⟨by decide, C1_query_precedence c1Backend (some "txn_h") "chg_q" (by decide)⟩

/-- C2: with neither an `X-Transaction-Id` header nor a `charge_id` query
parameter, `check_premium_access` never admits: no verification is
attempted, one charge is created for the route's configured price, the
status is never 200, and when charge creation succeeds the response is the
402 challenge carrying that charge. -/
theorem C2_no_proof_challenge_only (B : Backend) :
    (check_premium_access true B none none).resp.status ≠ 200 ∧
    (check_premium_access true B none none).verifyCalls = [] ∧
    (check_premium_access true B none none).createCalls = [premiumChargeRequest] ∧
    (∀ c, B.create premiumChargeRequest = .ok c →
      (check_premium_access true B none none).resp =
        { status := 402, body := challengeBody c }) := by
  have hg : check_premium_access true B none none = noProofResult B [] := rfl
  rw [hg]
  refine ⟨noProofResult_status_ne_200 B [], noProofResult_verifyCalls B [],
    noProofResult_createCalls B [], ?_⟩
  intro c hc
  unfold noProofResult
  rw [hc]

/-- backend used for the C2 witness: verification always fails, charge
creation succeeds. -/
def c2Backend : Backend :=
  { verify := fun _ => .apiError 404 "Transaction not found"
    create := fun _ =>
      .ok { id := "ch_2", amount := "0.01", currency := "USDC",
            x402_requirements := .null } }

/-- C2 witness: the no-proof challenge at a concrete backend. -/
theorem C2_no_proof_challenge_only_witness :
    (check_premium_access true c2Backend none none).resp.status ≠ 200 ∧
    (check_premium_access true c2Backend none none).resp =
      { status := 402
        body := challengeBody
          { id := "ch_2", amount := "0.01", currency := "USDC",
            x402_requirements := .null } } :=
  ⟨(C2_no_proof_challenge_only c2Backend).1,
   (C2_no_proof_challenge_only c2Backend).2.2.2
     { id := "ch_2", amount := "0.01", currency := "USDC",
       x402_requirements := .null } rfl⟩

/-- backend used for the C5 theorems: `verify_charge` raises
`OrvionAPIError` with backend status 404 for every transaction id. -/
def c5Backend : Backend :=
  { verify := fun _ => .apiError 404 "Transaction not found"
    create := fun _ => .apiError "unused" }

/-- C5 counterexample: when the backend reports 404 for the transaction id
(surfaced by the SDK as `OrvionAPIError`), `verify_premium_payment` answers
500 with its own `Verification failed` envelope — the 404 is not passed
through unchanged. -/
theorem C5_counterexample :
    verify_premium_payment true c5Backend
      (some (.obj [("transaction_id", .str "txn_unknown")])) =
      { status := 500
        body := .obj [("error", .str "Verification failed"),
                      ("detail", .str "Transaction not found")] } ∧
    (500 : Nat) ≠ 404 :=
  ⟨rfl, by decide⟩

/-- C5 (amended): every `OrvionAPIError` raised during the verify call —
whatever the backend status, including 404 transaction-not-found — is
mapped by `verify_premium_payment` to HTTP 500 with
`{error: Verification failed, detail}`. -/
theorem C5_api_error_maps_to_500 (B : Backend) (fields : List (String × JValue))
    (st : Nat) (msg : String)
    (ht : ((lookupField fields "transaction_id").getD .null).truthy = true)
    (hv : B.verify ((lookupField fields "transaction_id").getD .null) =
      .apiError st msg) :
    verify_premium_payment true B (some (.obj fields)) =
      { status := 500
        body := .obj [("error", .str "Verification failed"),
                      ("detail", .str msg)] } := by
  unfold verify_premium_payment
  simp [ht, hv]

/-- C5 witness: the amended 500 mapping at the counterexample input. -/
theorem C5_api_error_maps_to_500_witness :
    verify_premium_payment true c5Backend
      (some (.obj [("transaction_id", .str "txn_unknown")])) =
      { status := 500
        body := .obj [("error", .str "Verification failed"),
                      ("detail", .str "Transaction not found")] } :=
  C5_api_error_maps_to_500 c5Backend [("transaction_id", .str "txn_unknown")]
    404 "Transaction not found" rfl rfl

/-- C6: every 402 challenge produced by `check_premium_access` has a body
that is exactly `{error: Payment Required, charge_id, amount, currency,
x402_requirements, description}` for the charge created from the route's
configured price; when the backend echoes the requested amount and
currency into the created charge, the body carries `amount "0.01"` and
`currency "USDC"`. -/
theorem C6_402_challenge_body (B : Backend) (hdr q : Option String)
    (hecho : ∀ req c, B.create req = .ok c →
      c.amount = req.amount ∧ c.currency = req.currency)
    (h402 : (check_premium_access true B hdr q).resp.status = 402) :
    ∃ c, B.create premiumChargeRequest = .ok c ∧
      (check_premium_access true B hdr q).resp.body = challengeBody c ∧
      c.amount = "0.01" ∧ c.currency = "USDC" ∧
      (check_premium_access true B hdr q).resp.body.get "error" =
        some (.str "Payment Required") ∧
      (check_premium_access true B hdr q).resp.body.get "charge_id" =
        some (.str c.id) ∧
      (check_premium_access true B hdr q).resp.body.get "amount" =
        some (.str "0.01") ∧
      (check_premium_access true B hdr q).resp.body.get "currency" =
        some (.str "USDC") ∧
      (check_premium_access true B hdr q).resp.body.get "x402_requirements" =
        some c.x402_requirements ∧
      (check_premium_access true B hdr q).resp.body.get "description" =
        some (.str "Premium Article Access") := by
  rcases gate_cases B hdr q with ⟨v, hg⟩ | ⟨t, r, _, _, _, _, hg⟩
  · rw [hg] at h402 ⊢
    obtain ⟨c, hc, hresp⟩ := noProofResult_402 B v h402
    obtain ⟨ha, hcu⟩ := hecho premiumChargeRequest c hc
    have ha01 : c.amount = "0.01" := ha
    have hcu1 : c.currency = "USDC" := hcu
    refine ⟨c, hc, ?_, ha01, hcu1, ?_, ?_, ?_, ?_, ?_, ?_⟩
    · rw [hresp]
    · rw [hresp]; rfl
    · rw [hresp]; rfl
    · rw [hresp, ← ha01]; rfl
    · rw [hresp, ← hcu1]; rfl
    · rw [hresp]; rfl
    · rw [hresp]; rfl
  · rw [hg] at h402
    simp at h402

/-- backend used for the C6 witness: charge creation echoes the requested
amount and currency; verification always fails. -/
def c6Backend : Backend :=
  { verify := fun _ => .apiError 404 "Transaction not found"
    create := fun req =>
      .ok { id := "ch_6", amount := req.amount, currency := req.currency,
            x402_requirements := .null } }

/-- C6 witness: the 402 body fields at a concrete echoing backend. -/
theorem C6_402_challenge_body_witness :
    ∃ c, c6Backend.create premiumChargeRequest = .ok c ∧
      (check_premium_access true c6Backend none none).resp.body = challengeBody c ∧
      c.amount = "0.01" ∧ c.currency = "USDC" ∧
      (check_premium_access true c6Backend none none).resp.body.get "error" =
        some (.str "Payment Required") ∧
      (check_premium_access true c6Backend none none).resp.body.get "charge_id" =
        some (.str c.id) ∧
      (check_premium_access true c6Backend none none).resp.body.get "amount" =
        some (.str "0.01") ∧
      (check_premium_access true c6Backend none none).resp.body.get "currency" =
        some (.str "USDC") ∧
      (check_premium_access true c6Backend none none).resp.body.get
        "x402_requirements" = some c.x402_requirements ∧
      (check_premium_access true c6Backend none none).resp.body.get "description" =
        some (.str "Premium Article Access") :=
  C6_402_challenge_body c6Backend none none
    (fun req c h => by cases h; exact ⟨rfl, rfl⟩) rfl

/-- C3: price integrity.  (a) Every admitted response of
`check_premium_access` reports exactly the backend-reported amount and
currency of the verified transaction.  (b) Every charge payload submitted
by `checkout_with_route` is computed solely from the backend-fetched route
record selected by `route_id` (plus the request's base URL for the return
URL): the caller supplies no amount, currency or receiver configuration. -/
theorem C3_price_integrity :
    (∀ (B : Backend) (hdr q : Option String),
      (check_premium_access true B hdr q).resp.status = 200 →
      ∃ t r, B.verify (.str t) = .ok r ∧ r.verified = true ∧
        (check_premium_access true B hdr q).verifyCalls = [JValue.str t] ∧
        (check_premium_access true B hdr q).resp.body.get "amount" =
          some (.str r.amount) ∧
        (check_premium_access true B hdr q).resp.body.get "currency" =
          some (.str r.currency) ∧
        (check_premium_access true B hdr q).resp.body.get "transaction_id" =
          some (.str r.transaction_id)) ∧
    (∀ (fetch : SdkOutcome JValue) (rid base : String) (create : SdkOutcome JValue)
        (p : List (String × JValue)),
      p ∈ (checkout_with_route fetch rid base create).chargePayloads →
      ∃ items route, fetch = .ok (.arr items) ∧
        find_route items rid = .ok (some route) ∧
        p = charge_payload route base) := by
  constructor
  · intro B hdr q h200
    rcases gate_cases B hdr q with ⟨v, hg⟩ | ⟨t, r, _, _, hv, hr, hg⟩
    · rw [hg] at h200
      exact absurd h200 (noProofResult_status_ne_200 B v)
    · exact ⟨t, r, hv, hr, by rw [hg], by rw [hg]; rfl, by rw [hg]; rfl,
        by rw [hg]; rfl⟩
  · intro fetch rid base create p hp
    cases fetch with
    | exn m => simp [checkout_with_route] at hp
    | ok routes =>
      unfold checkout_with_route at hp
      dsimp only at hp
      cases hs : scan_routes routes rid with
      | exn m =>
          rw [hs] at hp
          simp at hp
      | ok o =>
        rw [hs] at hp
        cases o with
        | none => simp at hp
        | some route =>
          dsimp only at hp
          cases routes with
          | arr items =>
            have hf : find_route items rid = .ok (some route) := by
              simpa [scan_routes] using hs
            refine ⟨items, route, rfl, hf, ?_⟩
            cases hst : (lookupField route "status").getD (.str "active") with
            | str s =>
                rw [hst] at hp
                dsimp only at hp
                by_cases hact : s = "active"
                · rw [if_pos hact] at hp
                  by_cases hamt : ((lookupField route "amount").getD .null).truthy
                  · rw [if_pos hamt] at hp
                    rw [create_and_redirect_payloads] at hp
                    simpa using hp
                  · rw [if_neg hamt] at hp
                    simp at hp
                · rw [if_neg hact] at hp
                  simp at hp
            | null => rw [hst] at hp; simp at hp
            | bool b => rw [hst] at hp; simp at hp
            | num n => rw [hst] at hp; simp at hp
            | arr i => rw [hst] at hp; simp at hp
            | obj f => rw [hst] at hp; simp at hp
          | null => simp [scan_routes] at hs
          | bool b => simp [scan_routes] at hs
          | num n => simp [scan_routes] at hs
          | str s => simp [scan_routes] at hs
          | obj f => simp [scan_routes] at hs

/-- backend used for the C3 witness: exactly one transaction id verifies. -/
def c3Backend : Backend :=
  { verify := fun t =>
      match t with
      | .str s =>
          if s = "txn_ok" then
            .ok { verified := true, transaction_id := "txn_ok", amount := "0.01",
                  currency := "USDC", customer_ref := "demo", reason := none }
          else .apiError 404 "Transaction not found"
      | _ => .apiError 404 "Transaction not found"
    create := fun _ => .apiError "unused" }

/-- route record used for the C3 witness. -/
def c3Route : List (String × JValue) :=
  [("id", .str "route_1"), ("amount", .str "0.5"), ("currency", .str "EUR"),
   ("receiver_config_id", .str "rc_1")]

/-- C3 witness: both halves of the price-integrity theorem at concrete
inputs. -/
theorem C3_price_integrity_witness :
    (∃ t r, c3Backend.verify (.str t) = .ok r ∧ r.verified = true ∧
      (check_premium_access true c3Backend (some "txn_ok") none).verifyCalls =
        [JValue.str t] ∧
      (check_premium_access true c3Backend (some "txn_ok") none).resp.body.get
        "amount" = some (.str r.amount) ∧
      (check_premium_access true c3Backend (some "txn_ok") none).resp.body.get
        "currency" = some (.str r.currency) ∧
      (check_premium_access true c3Backend (some "txn_ok") none).resp.body.get
        "transaction_id" = some (.str r.transaction_id)) ∧
    (∃ items route,
      (SdkOutcome.ok (JValue.arr [.obj c3Route]) : SdkOutcome JValue) =
        .ok (.arr items) ∧
      find_route items "route_1" = .ok (some route) ∧
      charge_payload c3Route "http://localhost:5002" =
        charge_payload route "http://localhost:5002") :=
  ⟨C3_price_integrity.1 c3Backend (some "txn_ok") none rfl,
   C3_price_integrity.2 (.ok (.arr [.obj c3Route])) "route_1" "http://localhost:5002"
     (.ok (.obj [("checkout_url", .str "https://pay.orvion.sh/c/ch_9")]))
     (charge_payload c3Route "http://localhost:5002")
     (by
       have heq : (checkout_with_route (.ok (.arr [.obj c3Route])) "route_1"
           "http://localhost:5002"
           (.ok (.obj [("checkout_url", .str "https://pay.orvion.sh/c/ch_9")]))).chargePayloads =
           [charge_payload c3Route "http://localhost:5002"] := rfl
       rw [heq]
       exact List.mem_singleton_self _)⟩

end Orvion
